import Mathlib

/-!
Shallow embedding of `src/streamlit_app.py` (AI-Powered Investment Memo
Generator). Python strings are modelled as Lean `String` (a list of unicode
scalar values, matching Python's code-point view of `str`); Python slicing,
`strip`, falsiness and `endswith` are modelled explicitly below. External
effects (the Gemini API, the PDF/PPTX parsing libraries, the HTTP fetch) are
modelled as explicit function parameters or `Except` values, and the number
of network calls a code path performs is returned alongside its result.
-/

deriving instance DecidableEq for Except

namespace MQM

/-- Python whitespace characters stripped by `str.strip()` (ASCII range). -/
def pyIsSpace (c : Char) : Bool :=
  c == ' ' || c == '\t' || c == '\n' || c == '\r' || c == '\x0b' || c == '\x0c'

/-- Python `s.strip()`: drop leading and trailing whitespace. -/
def pyStrip (s : String) : String :=
  String.mk (((s.data.dropWhile pyIsSpace).reverse.dropWhile pyIsSpace).reverse)

/-- Python `not s.strip()`: the string is empty or whitespace-only. -/
def pyStripAllSpace (s : String) : Bool :=
  s.data.all pyIsSpace

/-- Python falsiness of the credential `google_api_key` (absent, or the
empty string, both test false under `if not api_key`). -/
def keyFalsy : Option String → Bool
  | none => true
  | some s => s == ""

/-- Python `s[:n]` on code points. -/
def pySlice (s : String) (n : Nat) : String :=
  String.mk (s.data.take n)

/-- Python `s.endswith(suffix)` (case-sensitive code-point comparison). -/
def pyEndsWith (s suffix : String) : Bool :=
  suffix.data.isSuffixOf s.data

/-- The separator the generator places between the instruction prompt and
the extracted document text (source line 89). -/
def promptSeparator : String := "\n\nHere is the relevant document text to analyze:\n\n"

/-- The provider size ceiling checked at source line 92. -/
def promptCeiling : Nat := 28000

/-- The truncation marker appended at source line 93. -/
def truncationMarker : String := "...\n(Text truncated due to length)"

/-- Source line 89: `full_prompt = f"{prompt}\n\nHere is the relevant document
text to analyze:\n\n{document_text}"`. -/
def full_prompt_raw (prompt document_text : String) : String :=
  prompt ++ promptSeparator ++ document_text

/-- Source lines 89-93: build the full prompt, truncating to the first 28000
characters and appending the marker when it is too long. -/
def buildPrompt (prompt document_text : String) : String :=
  let fp := full_prompt_raw prompt document_text
  if fp.length > promptCeiling then pySlice fp promptCeiling ++ truncationMarker else fp

/-- The fixed message returned when no credential is configured (line 82). -/
def missingKeyMsg (section_name : String) : String :=
  "Please provide a Gemini API key in Streamlit secrets to generate " ++ section_name ++ "."

/-- The per-section error string returned when the API raises (line 99). -/
def genErrorMsg (section_name e : String) : String :=
  "Could not generate " ++ section_name ++ ". Error: " ++ e

/-- Source lines 76-99, `generate_memo_section_llm`. The external API
(`model.generate_content` and everything else inside the `try`) is one
parameter `api`, returning the response text or the raised exception's
message. The second component of the result counts network calls made. -/
def generate_memo_section_llm (section_name prompt document_text : String)
    (api_key : Option String) (api : String → Except String String) : String × Nat :=
  if keyFalsy api_key then (missingKeyMsg section_name, 0)
  else
    match api (buildPrompt prompt document_text) with
    | Except.ok t => (pyStrip t, 1)
    | Except.error e => (genErrorMsg section_name e, 1)

/-- Source lines 149-160: the fixed, ordered list of the 10 memo sections
and their instruction prompts. -/
def memo_sections : List (String × String) :=
  [("Executive Summary", "Generate a concise, plain-language elevator pitch for the company."),
   ("Quick Facts", "Extract the company's foundation date, details about any funding rounds (amount, type, investors), and any significant contracts or partnerships mentioned."),
   ("Customer Persona", "Describe the ideal customer or target audience for the company's product/service. Who buys it and why?"),
   ("Problem", "Identify the core problem or pain point that the company's product/service is designed to solve."),
   ("Solution", "Describe the actual product, service, or approach the company uses to solve the identified problem. Explain its key features and how it works."),
   ("Customer Voice / Expert Opinion", "Extract any customer testimonials, case studies, or expert opinions that validate the company's offering."),
   ("Founding Team", "List the key founding team members and their roles, along with any notable relevant experience."),
   ("Fundraising and GTM", "Detail the company's fundraising 'ask' (what they are seeking), their go-to-market strategy, and any current traction (e.g., users, revenue, growth metrics)."),
   ("Key Risk", "Identify and describe the main risks or challenges the company might face (e.g., market competition, regulatory, execution)."),
   ("Media (Optional)", "Extract any mentions of media coverage, awards, or significant public recognition.")]

/-- Source lines 162-167: the section-generation loop, iterating the 10
sections in order and storing each generated result keyed by section name. -/
def runSections (document_text : String) (google_api_key : Option String)
    (api : String → Except String String) : List (String × String) :=
  memo_sections.map
    (fun sp => (sp.1, (generate_memo_section_llm sp.1 sp.2 document_text google_api_key api).1))

/-- Outcome of the Generate Memo button handler (lines 139-167): one of the
three diagnostics, or the generated per-section results. -/
inductive MemoOutcome where
  | warnNoInput : MemoOutcome
  | errorNoText : MemoOutcome
  | errorNoKey : MemoOutcome
  | generated : List (String × String) → MemoOutcome
deriving DecidableEq

/-- Source lines 139-167: the ordered precondition checks and the generation
loop. `uploaded` is the truthiness of `uploaded_pitch_deck`, `website_url`
is falsy exactly when empty. -/
def generateMemoButton (uploaded : Bool) (website_url all_document_text : String)
    (google_api_key : Option String) (api : String → Except String String) : MemoOutcome :=
  if (!uploaded) && website_url == "" then MemoOutcome.warnNoInput
  else if pyStripAllSpace all_document_text then MemoOutcome.errorNoText
  else if keyFalsy google_api_key then MemoOutcome.errorNoKey
  else MemoOutcome.generated (runSections all_document_text google_api_key api)

/-- How many section-generation calls an outcome performed: one per stored
section result, none on a diagnostic. -/
def sectionCalls : MemoOutcome → Nat
  | MemoOutcome.generated rs => rs.length
  | _ => 0

/-- One assembled block of the final memo (lines 180-181): a level-2 heading
line with the section name, then the section's current text and a blank line. -/
def sectionBlock (sc : String × String) : String :=
  "## " ++ sc.1 ++ "\n" ++ (sc.2 ++ "\n\n")

/-- Source lines 178-181: final memo assembly by string accumulation over the
ordered entries. -/
def assembleMemo (entries : List (String × String)) : String :=
  entries.foldl (fun acc sc => acc ++ ("## " ++ sc.1 ++ "\n") ++ (sc.2 ++ "\n\n")) ""

/-- The ordered MemoSectionResult after user edits: one entry per spec
section, in spec order, whose text is the user's current value. -/
def memoEntries (edits : String → String) : List (String × String) :=
  memo_sections.map (fun sp => (sp.1, edits sp.1))

/-- Source lines 126-132: pitch-deck dispatch by filename suffix. Returns the
text contributed to `all_document_text` and whether the success notification
is shown (it always is once a file was uploaded). `pdfText` and `pptxText`
are the outputs the two extractors would produce for this file. -/
def pitchDeckDispatch (name pdfText pptxText : String) : String × Bool :=
  if pyEndsWith name ".pdf" then (pdfText, true)
  else if pyEndsWith name ".pptx" then (pptxText, true)
  else ("", true)

/-- The document part of the extracted text: nothing when no file was
uploaded, otherwise whatever the dispatch contributed. An upload is
`(filename, pdf extractor output, pptx extractor output)`. -/
def pitchDeckContribution (uploaded : Option (String × String × String)) : String :=
  match uploaded with
  | none => ""
  | some u => (pitchDeckDispatch u.1 u.2.1 u.2.2).1

/-- Source lines 124-137: accumulation of `all_document_text`, starting empty,
appending the document contribution, then `"\n\n" + scraped` when a URL was
supplied. -/
def buildAllDocumentText (uploaded : Option (String × String × String))
    (website_url scraped : String) : String :=
  let t := "" ++ pitchDeckContribution uploaded
  if website_url == "" then t else t ++ ("\n\n" ++ scraped)

/-- Follows the claim's words, for comparison with `buildAllDocumentText`:
ExtractedText is the document text and the scraped web text separated by a
single blank line, each part empty when its source is absent. -/
def specExtractedText (docText webText : String) : String :=
  docText ++ "\n\n" ++ webText

mutual

/-- A parsed HTML node: an element with a tag, its class-attribute tokens and
its children, or a text node. -/
inductive HNode where
  | element : String → List String → HForest → HNode
  | text : String → HNode

/-- A sequence of sibling HTML nodes. -/
inductive HForest where
  | nil : HForest
  | cons : HNode → HForest → HForest

end

mutual

/-- BeautifulSoup `soup.find(...)`: the first node in document (pre-)order
whose tag and classes satisfy the predicate. -/
def findNode (p : String → List String → Bool) : HNode → Option HNode
  | HNode.text _ => none
  | HNode.element tag cls cs =>
      if p tag cls then some (HNode.element tag cls cs) else findForest p cs

/-- `findNode` over a forest of siblings, left to right. -/
def findForest (p : String → List String → Bool) : HForest → Option HNode
  | HForest.nil => none
  | HForest.cons n ns =>
      match findNode p n with
      | some r => some r
      | none => findForest p ns

end

mutual

/-- BeautifulSoup `stripped_strings`: each descendant text node stripped,
whitespace-only ones dropped, in document order. -/
def strippedStrings : HNode → List String
  | HNode.text s => if pyStrip s == "" then [] else [pyStrip s]
  | HNode.element _ _ cs => forestStrippedStrings cs

/-- `strippedStrings` over a forest of siblings. -/
def forestStrippedStrings : HForest → List String
  | HForest.nil => []
  | HForest.cons n ns => strippedStrings n ++ forestStrippedStrings ns

end

/-- BeautifulSoup `get_text(separator='\n', strip=True)`. -/
def getText (n : HNode) : String :=
  String.intercalate "\n" (strippedStrings n)

/-- Source line 62: `soup.find('article') or soup.find('main') or
soup.find('div', class_='content')`. -/
def selectMainContent (soup : HNode) : Option HNode :=
  match findNode (fun tag _ => tag == "article") soup with
  | some el => some el
  | none =>
      match findNode (fun tag _ => tag == "main") soup with
      | some el => some el
      | none => findNode (fun tag cls => tag == "div" && cls.contains "content") soup

/-- Source lines 55-74, `scrape_website_text`. The HTTP GET and HTML parse
are one `Except` parameter: an exception path returns the empty string, a
fetched document goes through the selector fallback, and when no preferred
selector matches, all stripped strings of the document are joined. -/
def scrape_website_text (response : Except String HNode) : String :=
  match response with
  | Except.error _ => ""
  | Except.ok soup =>
      match selectMainContent soup with
      | some mc => getText mc
      | none => String.intercalate "\n" (strippedStrings soup)

/-- Follows the claim's words, for comparison with `selectMainContent`: the
third fallback accepts any element carrying class "content", not only a
`div`. -/
def specSelectMainContent (soup : HNode) : Option HNode :=
  match findNode (fun tag _ => tag == "article") soup with
  | some el => some el
  | none =>
      match findNode (fun tag _ => tag == "main") soup with
      | some el => some el
      | none => findNode (fun _ cls => cls.contains "content") soup

/-- Follows the claim's words: `scrape_website_text` on a fetched page, with
the spec's any-element reading of the class-"content" fallback. -/
def specScrapeSuccess (soup : HNode) : String :=
  match specSelectMainContent soup with
  | some mc => getText mc
  | none => String.intercalate "\n" (strippedStrings soup)

/-- A Streamlit uploaded file object: its bytes and the stream position left
by previous reads. -/
structure UploadedFile where
  data : List Nat
  pos : Nat
deriving DecidableEq

/-- Python `uploaded_file.read()`: everything from the current position, and
the file with its position advanced to the end. -/
def fileRead (f : UploadedFile) : List Nat × UploadedFile :=
  (f.data.drop f.pos, { data := f.data, pos := f.data.length })

/-- Source lines 34-37: concatenate `page.extract_text() or ""` over the
parsed pages (`none` models `extract_text()` returning `None`). -/
def pdfPagesText (pages : List (Option String)) : String :=
  pages.foldl (fun acc p => acc ++ p.getD "") ""

/-- Source lines 29-39, `extract_text_from_pdf`. `PdfReader` is a parameter
from bytes to the pages' texts or the raised exception's message; the
function reads the uploaded file's stream and returns the extracted text (or
the error string of line 39) together with the file state after the read. -/
def extract_text_from_pdf (pdfReader : List Nat → Except String (List (Option String)))
    (uploaded_file : UploadedFile) : String × UploadedFile :=
  let r := fileRead uploaded_file
  match pdfReader r.1 with
  | Except.ok pages => (pdfPagesText pages, r.2)
  | Except.error e => ("Error extracting PDF: " ++ e, r.2)

/-- Source lines 45-49: concatenate `shape.text + "\n"` over slides and
shapes (`none` models a shape without a text attribute). -/
def pptxSlidesText (slides : List (List (Option String))) : String :=
  slides.foldl
    (fun acc sh =>
      sh.foldl (fun a t => match t with | some s => a ++ (s ++ "\n") | none => a) acc) ""

/-- Source lines 41-52, `extract_text_from_pptx`, with `Presentation` a
parameter from bytes to the slides' shape texts or an exception message. -/
def extract_text_from_pptx (presentation : List Nat → Except String (List (List (Option String))))
    (uploaded_file : UploadedFile) : String × UploadedFile :=
  let r := fileRead uploaded_file
  match presentation r.1 with
  | Except.ok slides => (pptxSlidesText slides, r.2)
  | Except.error e => ("Error extracting PPTX: " ++ e, r.2)

/-- The plain concatenation of the section blocks of an entry list, used to
state what `assembleMemo`'s accumulation produces. -/
def concatBlocks : List (String × String) → String
  | [] => ""
  | sc :: rest => sectionBlock sc ++ concatBlocks rest

/-- A concrete API stub that raises exactly on the first section's built
prompt (over empty document text) and returns "ok" for every other prompt. -/
def sampleFailingApi : String → Except String String := fun p =>
  if p = buildPrompt "Generate a concise, plain-language elevator pitch for the company." ""
    then Except.error "boom" else Except.ok "ok"

/-- A 28000-character extracted text, used as a concrete over-ceiling input. -/
def sampleBigText : String :=
  String.mk (List.replicate 28000 'x')

/-- A 28001-character instruction, used as a concrete input whose instruction
alone already exceeds the provider ceiling. -/
def sampleBigInstruction : String :=
  String.mk (List.replicate 28001 'a')

/-- The first bytes of a well-formed PDF fixture. -/
def samplePdfBytes : List Nat := [37, 80, 68, 70]

/-- A concrete stand-in for `PdfReader`: parses the fixture bytes to one page
of text "Hello" and fails on anything else (in particular on an empty
stream, as `PdfReader` does). -/
def samplePdfReader : List Nat → Except String (List (Option String)) := fun b =>
  if b = samplePdfBytes then Except.ok [some "Hello"]
  else Except.error "Cannot read an empty file"

/-- A fixture page whose only marked-up content is a `p` element carrying
class "content" (no `article`, no `main`, no `div` of class "content"),
next to unrelated text. -/
def sampleContentPage : HNode :=
  HNode.element "[document]" []
    (HForest.cons
      (HNode.element "body" []
        (HForest.cons
          (HNode.element "p" ["content"] (HForest.cons (HNode.text "X") HForest.nil))
          (HForest.cons
            (HNode.element "span" [] (HForest.cons (HNode.text "Other") HForest.nil))
            HForest.nil)))
      HForest.nil)

/-- A fixture page containing both an `article` element (text "A") and a
`main` element (text "M"). -/
def sampleArticleMainPage : HNode :=
  HNode.element "[document]" []
    (HForest.cons
      (HNode.element "body" []
        (HForest.cons
          (HNode.element "article" [] (HForest.cons (HNode.text "A") HForest.nil))
          (HForest.cons
            (HNode.element "main" [] (HForest.cons (HNode.text "M") HForest.nil))
            HForest.nil)))
      HForest.nil)

theorem string_data_append (s t : String) : (s ++ t).data = s.data ++ t.data := rfl

theorem string_length_data (s : String) : s.length = s.data.length := rfl

theorem string_mk_data (s : String) : String.mk s.data = s := rfl

theorem string_data_mk (l : List Char) : (String.mk l).data = l := rfl

theorem string_mk_append (a b : List Char) : String.mk (a ++ b) = String.mk a ++ String.mk b := rfl

theorem string_append_assoc (a b c : String) : a ++ b ++ c = a ++ (b ++ c) := by
  cases a with
  | mk la =>
      cases b with
      | mk lb =>
          cases c with
          | mk lc =>
              show String.mk (la ++ lb ++ lc) = String.mk (la ++ (lb ++ lc))
              rw [List.append_assoc]

theorem string_empty_append (s : String) : "" ++ s = s := by
  cases s with
  | mk l => rfl

theorem string_append_empty (s : String) : s ++ "" = s := by
  cases s with
  | mk l =>
      show String.mk (l ++ []) = String.mk l
      rw [List.append_nil]

theorem runSections_length (document_text : String) (google_api_key : Option String)
    (api : String → Except String String) :
    (runSections document_text google_api_key api).length = 10 := by
  simp [runSections, memo_sections]

theorem assembleMemo_go (l : List (String × String)) (a : String) :
    l.foldl (fun acc sc => acc ++ ("## " ++ sc.1 ++ "\n") ++ (sc.2 ++ "\n\n")) a =
      a ++ concatBlocks l := by
  induction l generalizing a with
  | nil => simp [concatBlocks, string_append_empty]
  | cons hd tl ih =>
      rw [List.foldl_cons, ih]
      simp only [concatBlocks, sectionBlock, string_append_assoc]

theorem assembleMemo_eq_concat (entries : List (String × String)) :
    assembleMemo entries = concatBlocks entries := by
  unfold assembleMemo
  rw [assembleMemo_go, string_empty_append]

/-- C4: calling the section generator with no API credential returns the
fixed prompt-to-configure message naming the section, and performs zero
network calls. -/
theorem no_credential_short_circuit (section_name prompt document_text : String)
    (api : String → Except String String) :
    generate_memo_section_llm section_name prompt document_text none api =
      ("Please provide a Gemini API key in Streamlit secrets to generate "
        ++ section_name ++ ".", 0) :=
  rfl

/-- C10: an empty-string credential is treated exactly like an absent one
(the short-circuit tests Python falsiness): the generator returns the fixed
prompt-to-configure message and performs zero network calls. -/
theorem empty_credential_short_circuit (section_name prompt document_text : String)
    (api : String → Except String String) :
    generate_memo_section_llm section_name prompt document_text (some "") api =
        generate_memo_section_llm section_name prompt document_text none api ∧
      generate_memo_section_llm section_name prompt document_text (some "") api =
        (missingKeyMsg section_name, 0) :=
  ⟨rfl, rfl⟩

/-- C9: an uploaded file whose name ends in neither ".pdf" nor ".pptx"
(a case-sensitive suffix check) contributes no text, raises nothing, and the
success notification is still shown. -/
theorem unsupported_extension_skipped (name pdfText pptxText : String)
    (hpdf : pyEndsWith name ".pdf" = false) (hpptx : pyEndsWith name ".pptx" = false) :
    pitchDeckDispatch name pdfText pptxText = ("", true) ∧
      pitchDeckContribution (some (name, pdfText, pptxText)) = "" := by
  unfold pitchDeckContribution pitchDeckDispatch
  simp [hpdf, hpptx]

/-- Witness for C9 at the concrete filename "deck.PDF": the upper-case
suffix fails the case-sensitive dispatch, so the file is silently skipped
while the success notification is shown. -/
theorem unsupported_extension_skipped_witness :
    pitchDeckDispatch "deck.PDF" "P" "Q" = ("", true) :=
  (unsupported_extension_skipped "deck.PDF" "P" "Q" (by decide) (by decide)).1

/-- C6: for every post-edit MemoSectionResult (the 10 section names in fixed
spec order, each with its current text), the assembled FinalMemo equals the
concatenation over the entries of a level-2 heading line plus the section
name, the section's current text and a blank line; assembly is deterministic
and order-preserving. -/
theorem memo_assembly_join (edits : String → String) :
    assembleMemo (memoEntries edits) = concatBlocks (memoEntries edits) ∧
      (memoEntries edits).length = 10 ∧
      (memoEntries edits).map Prod.fst = memo_sections.map Prod.fst := by
  refine ⟨assembleMemo_eq_concat _, ?_, ?_⟩
  · simp [memoEntries, memo_sections]
  · simp [memoEntries]

/-- C7 (amended): the extracted text is the document part followed, only when
a URL was supplied, by a blank-line separator and the scraped text; when no
URL was supplied there is no separator. -/
theorem extracted_text_concatenation (uploaded : Option (String × String × String))
    (website_url scraped : String) :
    buildAllDocumentText uploaded website_url scraped =
      if website_url = "" then pitchDeckContribution uploaded
      else specExtractedText (pitchDeckContribution uploaded) scraped := by
  unfold buildAllDocumentText specExtractedText
  by_cases h : website_url = ""
  · simp [h, string_empty_append]
  · simp [h, string_empty_append, string_append_assoc]

/-- Counterexample to C7 as stated: with a document ("D") and no URL, the
code yields "D" while the claimed blank-line concatenation yields "D\n\n",
so ExtractedText does not always equal the separated concatenation. -/
theorem extracted_text_claim_counterexample :
    buildAllDocumentText (some ("deck.pdf", "D", "")) "" "" ≠
        specExtractedText (pitchDeckContribution (some ("deck.pdf", "D", ""))) "" ∧
      buildAllDocumentText (some ("deck.pdf", "D", "")) "" "" = "D" ∧
      specExtractedText (pitchDeckContribution (some ("deck.pdf", "D", ""))) "" = "D\n\n" := by
  refine ⟨by decide, by decide, by decide⟩

/-- C2: the Generate Memo handler emits the input-missing warning exactly
when neither a document nor a URL was supplied, the empty-text error exactly
when an input was supplied but the extracted text is whitespace-only, and
the missing-key error exactly when input and text are fine but the
credential is falsy; it performs zero section-generation calls unless all
three preconditions hold, in which case it generates (all 10 sections). -/
theorem precondition_gate (uploaded : Bool) (website_url all_document_text : String)
    (google_api_key : Option String) (api : String → Except String String) :
    (generateMemoButton uploaded website_url all_document_text google_api_key api =
        MemoOutcome.warnNoInput ↔ uploaded = false ∧ website_url = "") ∧
      (generateMemoButton uploaded website_url all_document_text google_api_key api =
        MemoOutcome.errorNoText ↔
          ¬(uploaded = false ∧ website_url = "") ∧ pyStripAllSpace all_document_text = true) ∧
      (generateMemoButton uploaded website_url all_document_text google_api_key api =
        MemoOutcome.errorNoKey ↔
          ¬(uploaded = false ∧ website_url = "") ∧ pyStripAllSpace all_document_text = false ∧
            keyFalsy google_api_key = true) ∧
      ((∃ rs, generateMemoButton uploaded website_url all_document_text google_api_key api =
          MemoOutcome.generated rs) ↔
        ¬(uploaded = false ∧ website_url = "") ∧ pyStripAllSpace all_document_text = false ∧
          keyFalsy google_api_key = false) ∧
      (sectionCalls (generateMemoButton uploaded website_url all_document_text
          google_api_key api) = 0 ↔
        ¬(¬(uploaded = false ∧ website_url = "") ∧ pyStripAllSpace all_document_text = false ∧
          keyFalsy google_api_key = false)) := by
  have hlen := runSections_length all_document_text google_api_key api
  cases uploaded <;>
    rcases hurl : website_url == "" with _ | _ <;>
    rcases htext : pyStripAllSpace all_document_text with _ | _ <;>
    rcases hkey : keyFalsy google_api_key with _ | _ <;>
    simp_all [generateMemoButton, sectionCalls, beq_iff_eq]

/-- C3 (amended): web extraction on a fetched page follows the ordered
fallback of source line 62 — first `article`, then `main`, then a `div`
element (specifically) carrying class "content" — returning the text of the
first that exists; in particular, on a page with both an `article` and a
`main` element the result is the `article`'s text. -/
theorem selector_fallback (doc : HNode) :
    (∀ a, findNode (fun tag _ => tag == "article") doc = some a →
        scrape_website_text (Except.ok doc) = getText a) ∧
      (findNode (fun tag _ => tag == "article") doc = none →
        ∀ m, findNode (fun tag _ => tag == "main") doc = some m →
          scrape_website_text (Except.ok doc) = getText m) ∧
      (findNode (fun tag _ => tag == "article") doc = none →
        findNode (fun tag _ => tag == "main") doc = none →
        ∀ d, findNode (fun tag cls => tag == "div" && cls.contains "content") doc = some d →
          scrape_website_text (Except.ok doc) = getText d) ∧
      (∀ a m, findNode (fun tag _ => tag == "article") doc = some a →
        findNode (fun tag _ => tag == "main") doc = some m →
          scrape_website_text (Except.ok doc) = getText a) := by
  refine ⟨?_, ?_, ?_, ?_⟩
  · intro a ha
    simp [scrape_website_text, selectMainContent, ha]
  · intro ha m hm
    simp [scrape_website_text, selectMainContent, ha, hm]
  · intro ha hm d hd
    simp only [scrape_website_text, selectMainContent, ha, hm, hd]
  · intro a m ha hm
    simp [scrape_website_text, selectMainContent, ha]

/-- Witness for C3 on the fixture page holding both an `article` (text "A")
and a `main` (text "M"): extraction returns the `article`'s text. -/
theorem selector_fallback_witness :
    scrape_website_text (Except.ok sampleArticleMainPage) =
        getText (HNode.element "article" [] (HForest.cons (HNode.text "A") HForest.nil)) ∧
      scrape_website_text (Except.ok sampleArticleMainPage) = "A" :=
  ⟨(selector_fallback sampleArticleMainPage).2.2.2
      (HNode.element "article" [] (HForest.cons (HNode.text "A") HForest.nil))
      (HNode.element "main" [] (HForest.cons (HNode.text "M") HForest.nil)) rfl rfl,
    by decide⟩

/-- Counterexample to C3 as stated: on a page whose only "content"-class
element is a `p` (not a `div`), the claim's any-element reading selects that
element's text "X", but the code's `div`-only selector matches nothing and
falls back to all stripped strings, "X\nOther". -/
theorem selector_fallback_counterexample :
    scrape_website_text (Except.ok sampleContentPage) ≠ specScrapeSuccess sampleContentPage ∧
      scrape_website_text (Except.ok sampleContentPage) = "X\nOther" ∧
      specScrapeSuccess sampleContentPage = "X" := by
  refine ⟨by decide, by decide, by decide⟩

/-- C5: when exactly one section's API call raises (and all others return
content), that section's entry is the section-scoped error string, every
other section's entry is its stripped generated content, and the assembled
FinalMemo is still the concatenation of exactly 10 section blocks. -/
theorem single_section_failure_isolated (document_text e : String)
    (google_api_key : Option String) (api : String → Except String String)
    (c : Nat → String) (i : Nat)
    (hkey : keyFalsy google_api_key = false)
    (hi : i < memo_sections.length)
    (hfail : api (buildPrompt (memo_sections.get ⟨i, hi⟩).2 document_text) = Except.error e)
    (hok : ∀ j, (hj : j < memo_sections.length) → j ≠ i →
      api (buildPrompt (memo_sections.get ⟨j, hj⟩).2 document_text) = Except.ok (c j)) :
    (runSections document_text google_api_key api).length = 10 ∧
      (runSections document_text google_api_key api)[i]? =
        some ((memo_sections.get ⟨i, hi⟩).1,
          genErrorMsg (memo_sections.get ⟨i, hi⟩).1 e) ∧
      (∀ j, (hj : j < memo_sections.length) → j ≠ i →
        (runSections document_text google_api_key api)[j]? =
          some ((memo_sections.get ⟨j, hj⟩).1, pyStrip (c j))) ∧
      assembleMemo (runSections document_text google_api_key api) =
        concatBlocks (runSections document_text google_api_key api) := by
  refine ⟨runSections_length _ _ _, ?_, ?_, assembleMemo_eq_concat _⟩
  · unfold runSections
    rw [List.getElem?_map, List.getElem?_eq_getElem hi]
    simp only [List.get_eq_getElem] at hfail
    unfold generate_memo_section_llm
    rw [hkey]
    simp [hfail]
  · intro j hj hne
    have hj2 := hok j hj hne
    unfold runSections
    rw [List.getElem?_map, List.getElem?_eq_getElem hj]
    simp only [List.get_eq_getElem] at hj2
    unfold generate_memo_section_llm
    rw [hkey]
    simp [hj2]

set_option maxRecDepth 100000 in
/-- Witness for C5: with an API stub that raises only on the first section's
prompt, the run still produces 10 entries, the first entry is the
section-scoped error string, and the second entry carries its generated
content. -/
theorem single_section_failure_isolated_witness :
    (runSections "" (some "k") sampleFailingApi).length = 10 ∧
      (runSections "" (some "k") sampleFailingApi)[0]? =
        some ("Executive Summary", genErrorMsg "Executive Summary" "boom") ∧
      (runSections "" (some "k") sampleFailingApi)[1]? = some ("Quick Facts", "ok") := by
  have hok : ∀ j, (hj : j < memo_sections.length) → j ≠ 0 →
      sampleFailingApi (buildPrompt (memo_sections.get ⟨j, hj⟩).2 "") = Except.ok "ok" := by
    decide
  have h := single_section_failure_isolated "" "boom" (some "k") sampleFailingApi
    (fun _ => "ok") 0 (by decide) (by decide) (by decide) hok
  exact ⟨h.1, h.2.1, h.2.2.1 1 (by decide) (by decide)⟩

theorem buildPrompt_over (prompt document_text : String)
    (hover : promptCeiling < (full_prompt_raw prompt document_text).length) :
    buildPrompt prompt document_text =
      pySlice (full_prompt_raw prompt document_text) promptCeiling ++ truncationMarker := by
  simp only [buildPrompt]
  rw [if_pos hover]

theorem buildPrompt_over_length (prompt document_text : String)
    (hover : promptCeiling < (full_prompt_raw prompt document_text).length) :
    (buildPrompt prompt document_text).length = promptCeiling + truncationMarker.length := by
  rw [buildPrompt_over prompt document_text hover, String.length_append]
  have h : (pySlice (full_prompt_raw prompt document_text) promptCeiling).length =
      promptCeiling := by
    simp only [pySlice, string_length_data, string_data_mk, List.length_take]
    exact Nat.min_eq_left (Nat.le_of_lt hover)
  rw [h]

theorem buildPrompt_keeps_instruction (prompt document_text : String)
    (hover : promptCeiling < (full_prompt_raw prompt document_text).length)
    (hfit : prompt.length ≤ promptCeiling) :
    ∃ rest, buildPrompt prompt document_text = prompt ++ rest := by
  have hfit2 : (prompt.data).length ≤ promptCeiling := hfit
  refine ⟨String.mk ((promptSeparator.data ++ document_text.data).take
    (promptCeiling - prompt.data.length)) ++ truncationMarker, ?_⟩
  rw [buildPrompt_over prompt document_text hover]
  unfold full_prompt_raw pySlice
  rw [string_data_append, string_data_append, List.append_assoc,
    List.take_append_eq_append_take, List.take_of_length_le hfit2,
    string_mk_append, string_mk_data, string_append_assoc]

/-- C1 (amended): when the combined prompt exceeds the 28000-character
ceiling, the code keeps its first 28000 characters and appends the
truncation marker, so the resulting prompt has 28000 + 34 characters
(34 above the ceiling, it does not fit); the instruction is preserved
untruncated whenever the instruction itself is at most 28000 characters —
in particular whenever instruction plus separator fit the ceiling — while a
longer instruction can itself be cut, as the counterexample shows at 28001
characters. -/
theorem truncation_behavior (prompt document_text : String)
    (hover : promptCeiling < (full_prompt_raw prompt document_text).length) :
    buildPrompt prompt document_text =
        pySlice (full_prompt_raw prompt document_text) promptCeiling ++ truncationMarker ∧
      (buildPrompt prompt document_text).length = promptCeiling + truncationMarker.length ∧
      promptCeiling < (buildPrompt prompt document_text).length ∧
      (prompt.length ≤ promptCeiling →
        ∃ rest, buildPrompt prompt document_text = prompt ++ rest) := by
  have hmark : truncationMarker.length = 34 := by decide
  refine ⟨buildPrompt_over prompt document_text hover,
    buildPrompt_over_length prompt document_text hover, ?_,
    fun hfit => buildPrompt_keeps_instruction prompt document_text hover hfit⟩
  rw [buildPrompt_over_length prompt document_text hover, hmark]
  omega

/-- Witness for C1 at a one-character instruction and a 28000-character
extracted text: the combined prompt exceeds the ceiling, the truncated
prompt has exactly 28034 characters, and the instruction survives as a
prefix of it. -/
theorem truncation_behavior_witness :
    promptCeiling < (full_prompt_raw "p" sampleBigText).length ∧
      (buildPrompt "p" sampleBigText).length = 28034 ∧
      ∃ rest, buildPrompt "p" sampleBigText = "p" ++ rest := by
  have h3 : sampleBigText.length = 28000 := by
    rw [string_length_data, show sampleBigText.data = List.replicate 28000 'x' from rfl,
      List.length_replicate]
  have hlen : (full_prompt_raw "p" sampleBigText).length = 28051 := by
    unfold full_prompt_raw
    rw [String.length_append, String.length_append, h3,
      show ("p" : String).length = 1 from rfl,
      show promptSeparator.length = 50 from by decide]
  have hover : promptCeiling < (full_prompt_raw "p" sampleBigText).length := by
    rw [hlen]
    norm_num [promptCeiling]
  have hsum : promptCeiling + truncationMarker.length = 28034 := by
    rw [show truncationMarker.length = 34 from by decide]
    norm_num [promptCeiling]
  have hfit : ("p" : String).length ≤ promptCeiling := by
    rw [show ("p" : String).length = 1 from rfl]
    norm_num [promptCeiling]
  have h := truncation_behavior "p" sampleBigText hover
  exact ⟨hover, h.2.1.trans hsum, h.2.2.2 hfit⟩

/-- Counterexample to C1 as stated: on a 28001-character instruction with
empty extracted text the prompt is truncated, yet the result still exceeds
the 28000-character ceiling, and the instruction itself is cut (it is no
prefix of the sent prompt) — so neither "fits the ceiling" nor "the
instruction text is never truncated" holds of the code. -/
theorem truncation_claim_counterexample :
    promptCeiling < (buildPrompt sampleBigInstruction "").length ∧
      ¬ ∃ rest, buildPrompt sampleBigInstruction "" = sampleBigInstruction ++ rest := by
  have hbigd : sampleBigInstruction.data = List.replicate 28001 'a' := rfl
  have hlen : (full_prompt_raw sampleBigInstruction "").length = 28051 := by
    unfold full_prompt_raw
    rw [String.length_append, String.length_append, string_length_data, hbigd,
      List.length_replicate, show promptSeparator.length = 50 from by decide,
      show ("" : String).length = 0 from rfl]
  have hover : promptCeiling < (full_prompt_raw sampleBigInstruction "").length := by
    rw [hlen]
    norm_num [promptCeiling]
  have hslice : (pySlice (full_prompt_raw sampleBigInstruction "") promptCeiling).data =
      List.replicate 28000 'a' := by
    unfold pySlice full_prompt_raw
    rw [string_data_mk, string_data_append, string_data_append,
      show ("" : String).data = [] from rfl, List.append_nil,
      List.take_append_eq_append_take, hbigd, List.take_replicate, List.length_replicate,
      show min promptCeiling 28001 = 28000 from by norm_num [promptCeiling],
      show promptCeiling - 28001 = 0 from by norm_num [promptCeiling],
      List.take_zero, List.append_nil]
  have hdata : (buildPrompt sampleBigInstruction "").data =
      List.replicate 28000 'a' ++ truncationMarker.data := by
    rw [buildPrompt_over _ _ hover, string_data_append, hslice]
  constructor
  · have hl := buildPrompt_over_length sampleBigInstruction "" hover
    rw [hl, show truncationMarker.length = 34 from by decide]
    norm_num [promptCeiling]
  · rintro ⟨rest, hrest⟩
    have hr := congrArg String.data hrest
    rw [hdata, string_data_append, hbigd] at hr
    have h28 : (List.replicate 28000 'a' ++ truncationMarker.data)[(28000 : Nat)]? =
        some '.' := by
      rw [List.getElem?_append_right (by rw [List.length_replicate]),
        List.length_replicate, Nat.sub_self]
      decide
    have h2 : (List.replicate 28001 'a' ++ rest.data)[(28000 : Nat)]? = some 'a' := by
      rw [List.getElem?_append, List.length_replicate,
        if_pos (by norm_num : (28000 : Nat) < 28001), List.getElem?_replicate,
        if_pos (by norm_num : (28000 : Nat) < 28001)]
    rw [hr, h2] at h28
    exact absurd h28 (by decide)

/-- C8 (the code bug it exposes): the PDF extractor reads the uploaded
file's stream without rewinding, so a first call on a fresh file returns the
parsed pages' text, while a second call on the same file object reads an
empty stream, the parser raises, and the extractor returns the
"Error extracting PDF" string — repeated extraction is not idempotent. -/
theorem repeated_extraction_diverges
    (pdfReader : List Nat → Except String (List (Option String)))
    (pages : List (Option String)) (e : String) (f : UploadedFile)
    (hpos : f.pos = 0)
    (hok : pdfReader f.data = Except.ok pages)
    (hempty : pdfReader [] = Except.error e) :
    (extract_text_from_pdf pdfReader f).1 = pdfPagesText pages ∧
      (extract_text_from_pdf pdfReader (extract_text_from_pdf pdfReader f).2).1 =
        "Error extracting PDF: " ++ e ∧
      (pdfPagesText pages ≠ "Error extracting PDF: " ++ e →
        (extract_text_from_pdf pdfReader f).1 ≠
          (extract_text_from_pdf pdfReader (extract_text_from_pdf pdfReader f).2).1) := by
  simp only [extract_text_from_pdf, fileRead, hpos, List.drop_zero, hok, List.drop_length,
    hempty]
  exact ⟨trivial, trivial, fun hne => hne⟩

/-- Witness for C8 on a concrete four-byte PDF fixture and a parser that
fails on the empty stream: the first extraction yields "Hello", the second
extraction on the same file object yields the error string. -/
theorem repeated_extraction_diverges_witness :
    (extract_text_from_pdf samplePdfReader ⟨samplePdfBytes, 0⟩).1 = "Hello" ∧
      (extract_text_from_pdf samplePdfReader
          (extract_text_from_pdf samplePdfReader ⟨samplePdfBytes, 0⟩).2).1 =
        "Error extracting PDF: Cannot read an empty file" := by
  have h := repeated_extraction_diverges samplePdfReader [some "Hello"]
    "Cannot read an empty file" ⟨samplePdfBytes, 0⟩ rfl (by decide) (by decide)
  exact ⟨h.1.trans (by decide), h.2.1⟩

end MQM
